import Mathlib

/-!
Verification of the `ProductForm` component
(`src/components/inventory/product-form.tsx`) of the billing application.

The component is embedded shallowly: JS strings become `String`, JS numbers
become `Int`, optional values become `Option`, and the side effects of the
submit handler (toasts, console logging, router calls) are recorded as an
explicit list of effects.  JS truthiness (`if (productId)`, `a || b`) is
modelled exactly: the empty string and `0` are falsy.
-/

/-- The form value record (the `ProductFormValues` shape used by the
component), field for field. -/
structure ProductFormValues where
  name : String
  description : String
  sku : String
  hsn_code : String
  price : Int
  cost_price : Int
  stock_quantity : Int
  gst_rate : Int
  unit : String
  low_stock_threshold : Int
  type : String
  image_url : String
  barcode : String
  category : String
  tax_type : String
  purchase_tax_type : String
  discount : Int
  discount_type : String
  wholesale_price : Option Int
  opening_stock_date : Option String
deriving DecidableEq

/-- The optional `initialData` prop (typed `any` in the source): every field
possibly absent (`undefined` is `none`). -/
structure InitialData where
  name : Option String := none
  description : Option String := none
  sku : Option String := none
  hsn_code : Option String := none
  price : Option Int := none
  cost_price : Option Int := none
  stock_quantity : Option Int := none
  gst_rate : Option Int := none
  unit : Option String := none
  low_stock_threshold : Option Int := none
  type : Option String := none
  image_url : Option String := none
  barcode : Option String := none
  category : Option String := none
  tax_type : Option String := none
  purchase_tax_type : Option String := none
  discount : Option Int := none
  discount_type : Option String := none
  wholesale_price : Option Int := none
  opening_stock_date : Option String := none
deriving DecidableEq

/-- JS `a || d` on an optional string: falls back to `d` when the value is
absent or the empty string (falsy). -/
def jsOrStr (v : Option String) (d : String) : String :=
  match v with
  | none => d
  | some s => if s = "" then d else s

/-- JS `a || d` on an optional number: falls back to `d` when the value is
absent or `0` (falsy). -/
def jsOrInt (v : Option Int) (d : Int) : Int :=
  match v with
  | none => d
  | some n => if n = 0 then d else n

/-- JS `a || undefined` on an optional number (used for `wholesale_price`). -/
def jsOrUndef (v : Option Int) : Option Int :=
  match v with
  | none => none
  | some n => if n = 0 then none else some n

/-- JS `a ? new Date(a) : undefined` (used for `opening_stock_date`); the
date payload is kept as the source string. -/
def jsDateOpt (v : Option String) : Option String :=
  match v with
  | none => none
  | some s => if s = "" then none else some s

/-- JS truthiness of the optional `productId` string prop: `undefined` and
the empty string are falsy. -/
def jsTruthy (v : Option String) : Bool :=
  match v with
  | none => false
  | some s => if s = "" then false else true

/-- The `defaultValues` record computed at render from the optional
`initialData` (product-form.tsx, lines 43 to 64), with every `||` fallback
embedded by the helpers above. -/
def defaultValues (initialData : Option InitialData) : ProductFormValues :=
  { name := jsOrStr (initialData.bind InitialData.name) ""
  , description := jsOrStr (initialData.bind InitialData.description) ""
  , sku := jsOrStr (initialData.bind InitialData.sku) ""
  , hsn_code := jsOrStr (initialData.bind InitialData.hsn_code) ""
  , price := jsOrInt (initialData.bind InitialData.price) 0
  , cost_price := jsOrInt (initialData.bind InitialData.cost_price) 0
  , stock_quantity := jsOrInt (initialData.bind InitialData.stock_quantity) 0
  , gst_rate := jsOrInt (initialData.bind InitialData.gst_rate) 0
  , unit := jsOrStr (initialData.bind InitialData.unit) ("pcs")
  , low_stock_threshold := jsOrInt (initialData.bind InitialData.low_stock_threshold) 5
  , type := jsOrStr (initialData.bind InitialData.type) ("product")
  , image_url := jsOrStr (initialData.bind InitialData.image_url) ""
  , barcode := jsOrStr (initialData.bind InitialData.barcode) ""
  , category := jsOrStr (initialData.bind InitialData.category) ""
  , tax_type := jsOrStr (initialData.bind InitialData.tax_type) ("exclusive")
  , purchase_tax_type := jsOrStr (initialData.bind InitialData.purchase_tax_type) ("exclusive")
  , discount := jsOrInt (initialData.bind InitialData.discount) 0
  , discount_type := jsOrStr (initialData.bind InitialData.discount_type) ("percentage")
  , wholesale_price := jsOrUndef (initialData.bind InitialData.wholesale_price)
  , opening_stock_date := jsDateOpt (initialData.bind InitialData.opening_stock_date) }

/-- The initial `itemType` state:
`useState<'product' | 'service'>(initialData?.type || 'product')` (line 41). -/
def initialItemType (initialData : Option InitialData) : String :=
  jsOrStr (initialData.bind InitialData.type) ("product")

/-- The component state relevant to submission: the values held by the form
library, the `itemType` toggle, and the `loading` flag. -/
structure FormState where
  values : ProductFormValues
  itemType : String
  loading : Bool
deriving DecidableEq

/-- The component state right after mount, before any user interaction. -/
def initialFormState (initialData : Option InitialData) : FormState :=
  { values := defaultValues initialData
  , itemType := initialItemType initialData
  , loading := false }

/-- A JS error caught by the submit handler; only its `message` is read. -/
structure JsError where
  message : String
deriving DecidableEq

/-- The observable side effects of the submit handler, in the order they are
performed: `toast.success`, `toast.error`, `console.error`, `router.refresh`
and `router.push`. -/
inductive Effect where
  | toastSuccess (msg : String)
  | toastError (msg : String)
  | consoleError
  | routerRefresh
  | routerPush (path : String)
deriving DecidableEq

/-- The server-action call the handler makes: `createProduct(data)` or
`updateProduct(id, data)`. -/
inductive ApiCall where
  | create (data : ProductFormValues)
  | update (id : String) (data : ProductFormValues)
deriving DecidableEq

/-- The record passed to the server action, whichever action was called. -/
def ApiCall.payload : ApiCall → ProductFormValues
  | ApiCall.create d => d
  | ApiCall.update _ d => d

/-- `handleTypeChange` (lines 109 to 112): set the `itemType` state and keep
the form field `type` in sync via `form.setValue`. -/
def handleTypeChange (t : String) (st : FormState) : FormState :=
  { st with itemType := t, values := { st.values with type := t } }

/-- What one run of `handleSave` produces: the server-action call it made,
the side effects in order, and the component state when it returns. -/
structure SaveResult where
  call : ApiCall
  effects : List Effect
  state : FormState
deriving DecidableEq

/-- `handleSave` (lines 71 to 104).  `productId` is the optional prop tested
for truthiness by `if (productId)`; `defaults` is the captured
`defaultValues` record; `data` is the validated form data; `apiResult` is
the outcome of the awaited `createProduct`/`updateProduct` call.  On success
the handler toasts, refreshes the router and either pushes to the inventory
list or resets the form to the captured defaults with the current type kept
(then re-runs `handleTypeChange` on the same type); on error it toasts the
error message (or a generic one when the message is empty) and logs; the
`finally` block always clears `loading`. -/
def handleSave (productId : Option String) (defaults : ProductFormValues)
    (st : FormState) (data : ProductFormValues) (shouldRedirect : Bool)
    (apiResult : Except JsError Unit) : SaveResult :=
  let submissionData := { data with type := st.itemType }
  let call := if jsTruthy productId then
      ApiCall.update (productId.getD "") submissionData
    else
      ApiCall.create submissionData
  let successMsg := if jsTruthy productId then ("Item updated successfully")
    else ("Item created successfully")
  match apiResult with
  | Except.error e =>
    { call := call
    , effects := [ Effect.toastError (if e.message = "" then ("Something went wrong") else e.message)
                 , Effect.consoleError ]
    , state := { st with loading := false } }
  | Except.ok _ =>
    if shouldRedirect then
      { call := call
      , effects := [ Effect.toastSuccess successMsg, Effect.routerRefresh
                   , Effect.routerPush ("/dashboard/inventory") ]
      , state := { st with loading := false } }
    else
      let reset := { st with values := { defaults with type := st.itemType } }
      let synced := handleTypeChange st.itemType reset
      { call := call
      , effects := [ Effect.toastSuccess successMsg, Effect.routerRefresh ]
      , state := { synced with loading := false } }

/-- Modelled from the spec: the zod `productSchema` imported from
`lib/schemas/product` is not among the supplied source files.  The spec says
field-level validation is reported inline per field and blocks submission,
and names an empty `name` as the example of a missing required field, so the
model validates exactly that `name` is nonempty and reports an inline error
on the `name` field otherwise. -/
def validateProduct (v : ProductFormValues) :
    Except (List (String × String)) ProductFormValues :=
  if v.name = "" then Except.error [("name", "Required")] else Except.ok v

/-- Outcome of a submit attempt: blocked by validation with inline field
errors, or passed through to `handleSave`. -/
inductive SubmitOutcome where
  | blocked (fieldErrors : List (String × String))
  | submitted (result : SaveResult)
deriving DecidableEq

/-- `form.handleSubmit(onSubmit)` / `form.handleSubmit(onSaveAndNew)`
(lines 116 and 553): run validation; on failure report the field errors and
do not invoke the handler; on success invoke `handleSave` with the validated
data and the chosen redirect flag. -/
def formHandleSubmit (productId : Option String) (defaults : ProductFormValues)
    (st : FormState) (v : ProductFormValues) (shouldRedirect : Bool)
    (apiResult : Except JsError Unit) : SubmitOutcome :=
  match validateProduct v with
  | Except.error errs => SubmitOutcome.blocked errs
  | Except.ok data =>
      SubmitOutcome.submitted (handleSave productId defaults st data shouldRedirect apiResult)

/-- The server-action call a submit attempt made, if any. -/
def outcomeCall : SubmitOutcome → Option ApiCall
  | SubmitOutcome.blocked _ => none
  | SubmitOutcome.submitted r => some r.call

/-- The tab triggers rendered in the `TabsList` (lines 153 to 159), in
order; the `stock` trigger is rendered only when `itemType === 'product'`. -/
def tabsTriggers (itemType : String) : List String :=
  ["general", "pricing"] ++ (if itemType = "product" then ["stock"] else [])

/-- The `TabsContent` panes rendered (lines 162, 300 and 472 to 546), in
order; the `stock` pane is rendered only when `itemType === 'product'`. -/
def tabsContents (itemType : String) : List String :=
  ["general", "pricing"] ++ (if itemType = "product" then ["stock"] else [])

/-- `disabled={loading}` on the primary Save button (line 556). -/
def saveButtonDisabled (loading : Bool) : Bool := loading

/-- `disabled={loading}` on the Save and New button (line 553). -/
def saveAndNewButtonDisabled (loading : Bool) : Bool := loading

/-- The submission-related dynamics of one form instance: the `loading`
flag and the number of in-flight `handleSave` invocations. -/
structure SubmitState where
  loading : Bool
  inFlight : Nat
deriving DecidableEq

/-- An event of the instance: a click on an enabled submit button starts a
save; the awaited call settling (successfully or not) ends it. -/
inductive SubmitEvent where
  | start
  | settle (success : Bool)
deriving DecidableEq

/-- Event semantics of the instance: a save can start only through one of
the two submit buttons, both `disabled={loading}`; `handleSave` sets
`loading` on entry and its `finally` block clears it when the awaited call
settles. -/
def submitStep (s : SubmitState) : SubmitEvent → Option SubmitState
  | SubmitEvent.start =>
    if saveButtonDisabled s.loading || saveAndNewButtonDisabled s.loading then none
    else some { loading := true, inFlight := s.inFlight + 1 }
  | SubmitEvent.settle _ =>
    if s.inFlight = 0 then none
    else some { loading := false, inFlight := s.inFlight - 1 }

/-- States of one form instance reachable from mount. -/
inductive ReachableSubmit : SubmitState → Prop where
  | init : ReachableSubmit { loading := false, inFlight := 0 }
  | step (s s2 : SubmitState) (e : SubmitEvent) :
      ReachableSubmit s → submitStep s e = some s2 → ReachableSubmit s2

/-- An `initialData` record every field of which is present and truthy. -/
def mkInitial (s : String) (n : Int) : InitialData :=
  { name := some s, description := some s, sku := some s, hsn_code := some s
  , price := some n, cost_price := some n, stock_quantity := some n
  , gst_rate := some n, unit := some s, low_stock_threshold := some n
  , type := some s, image_url := some s, barcode := some s, category := some s
  , tax_type := some s, purchase_tax_type := some s, discount := some n
  , discount_type := some s, wholesale_price := some n
  , opening_stock_date := some s }

/-- An existing record whose `low_stock_threshold` is the falsy number `0`. -/
def zeroThresholdRecord : InitialData :=
  { name := some ("Widget"), low_stock_threshold := some 0 }

/-- C2: every error thrown by the create/update call is caught at the top of
the submit handler, surfaced as an error toast bearing the error's message
(or the generic text when the message is empty), logged to the console, and
nothing else happens: the effect list is exactly those two effects. -/
theorem c2_error_surfaced (pid : Option String) (dv : ProductFormValues)
    (st : FormState) (data : ProductFormValues) (rd : Bool) (e : JsError) :
    (handleSave pid dv st data rd (Except.error e)).effects
      = [ Effect.toastError (if e.message = "" then ("Something went wrong") else e.message)
        , Effect.consoleError ] := by
  rfl

/-- C3: on a failed create/update call the form values and the item type are
left exactly as they were, only the loading flag is cleared, and the only
effects are the error toast and the console log (no reset, no refresh, no
navigation). -/
theorem c3_error_leaves_form_unchanged (pid : Option String)
    (dv : ProductFormValues) (st : FormState) (data : ProductFormValues)
    (rd : Bool) (e : JsError) :
    (handleSave pid dv st data rd (Except.error e)).state
        = { values := st.values, itemType := st.itemType, loading := false }
    ∧ (handleSave pid dv st data rd (Except.error e)).effects
        = [ Effect.toastError (if e.message = "" then ("Something went wrong") else e.message)
          , Effect.consoleError ] := by
  exact ⟨rfl, rfl⟩

/-- C4: on a successful Save and New submission (no redirect) the form is
reset to the captured default values with the selected item type kept, the
item type state is unchanged and agrees with the form field, and the effects
are just the success toast and a refresh: no navigation occurs. -/
theorem c4_save_and_new_resets (initData : Option InitialData)
    (pid : Option String) (st : FormState) (data : ProductFormValues) :
    (handleSave pid (defaultValues initData) st data false (Except.ok ())).state.values
        = { defaultValues initData with type := st.itemType }
    ∧ (handleSave pid (defaultValues initData) st data false (Except.ok ())).state.itemType
        = st.itemType
    ∧ (handleSave pid (defaultValues initData) st data false (Except.ok ())).state.values.type
        = st.itemType
    ∧ (handleSave pid (defaultValues initData) st data false (Except.ok ())).effects
        = [ Effect.toastSuccess (if jsTruthy pid then ("Item updated successfully")
              else ("Item created successfully"))
          , Effect.routerRefresh ] := by
  exact ⟨rfl, rfl, rfl, rfl⟩

/-- C5: on a successful submission through the primary Save path the handler
toasts success, refreshes the current view and then navigates to the
inventory list, in that order. -/
theorem c5_save_refresh_then_navigate (pid : Option String)
    (dv : ProductFormValues) (st : FormState) (data : ProductFormValues) :
    (handleSave pid dv st data true (Except.ok ())).effects
      = [ Effect.toastSuccess (if jsTruthy pid then ("Item updated successfully")
            else ("Item created successfully"))
        , Effect.routerRefresh
        , Effect.routerPush ("/dashboard/inventory") ] := by
  rfl

/-- C10: the record handed to the server action always carries the current
`itemType` toggle in its `type` field, whatever the form's own `type` field
held, and `handleTypeChange` keeps the toggle state and the form field
synchronized. -/
theorem c10_submission_type_sync (pid : Option String)
    (dv : ProductFormValues) (st : FormState) (data : ProductFormValues)
    (rd : Bool) (r : Except JsError Unit) (t : String) :
    (handleSave pid dv st data rd r).call.payload.type = st.itemType
    ∧ (handleTypeChange t st).itemType = t
    ∧ (handleTypeChange t st).values.type = t := by
  refine ⟨?_, rfl, rfl⟩
  cases r with
  | error e => cases hb : jsTruthy pid <;> simp [handleSave, ApiCall.payload, hb]
  | ok u =>
      cases rd <;> cases hb : jsTruthy pid <;>
        simp [handleSave, ApiCall.payload, hb]

/-- C8: the Stock tab trigger and pane are rendered exactly when the
selected item type is `product` (so selecting `service` hides them), while
the General and Pricing tabs are rendered for every item type. -/
theorem c8_stock_tab_only_for_product (t : String) :
    ("stock" ∈ tabsTriggers t ↔ t = "product")
    ∧ ("stock" ∈ tabsContents t ↔ t = "product")
    ∧ "general" ∈ tabsTriggers t ∧ "pricing" ∈ tabsTriggers t
    ∧ "general" ∈ tabsContents t ∧ "pricing" ∈ tabsContents t := by
  by_cases h : t = "product"
  · subst h; refine ⟨?_, ?_, ?_, ?_, ?_, ?_⟩ <;> decide
  · have hs : ("stock" : String) ∈ (["general", "pricing"] : List String) ↔ False := by
      simp
    simp [tabsTriggers, tabsContents, h]

/-- C1 counterexample: the component prop `productId` is tested with
`if (productId)`, a JS truthiness test, so a supplied but empty `productId`
string takes the falsy branch: `createProduct` is called (not
`updateProduct`) and the created toast is shown, refuting the claim that a
supplied `productId` always leads to `updateProduct`. -/
theorem c1_counterexample :
    (handleSave (some "") (defaultValues none) (initialFormState none)
        (defaultValues none) true (Except.ok ())).call
      = ApiCall.create { defaultValues none with type := (initialFormState none).itemType }
    ∧ (handleSave (some "") (defaultValues none) (initialFormState none)
        (defaultValues none) true (Except.ok ())).effects
      = [ Effect.toastSuccess ("Item created successfully"), Effect.routerRefresh
        , Effect.routerPush ("/dashboard/inventory") ] := by
  exact ⟨rfl, rfl⟩

/-- C1 (amended): for every submission that passes validation, the handler
calls `updateProduct` and toasts the updated message when a non-empty
`productId` is supplied, and calls `createProduct` and toasts the created
message when `productId` is absent. -/
theorem c1_create_or_update_by_id (pid : String) (dv : ProductFormValues)
    (st : FormState) (data : ProductFormValues) (rd : Bool) (h : pid ≠ "") :
    ((handleSave (some pid) dv st data rd (Except.ok ())).call
        = ApiCall.update pid { data with type := st.itemType }
      ∧ Effect.toastSuccess ("Item updated successfully")
          ∈ (handleSave (some pid) dv st data rd (Except.ok ())).effects)
    ∧ ((handleSave none dv st data rd (Except.ok ())).call
        = ApiCall.create { data with type := st.itemType }
      ∧ Effect.toastSuccess ("Item created successfully")
          ∈ (handleSave none dv st data rd (Except.ok ())).effects) := by
  cases rd <;> simp [handleSave, jsTruthy, h]

/-- C1 witness: the amended statement at a concrete non-empty id and
concrete state. -/
theorem c1_create_or_update_by_id_witness :
    ((handleSave (some ("p1")) (defaultValues none) (initialFormState none)
        (defaultValues none) true (Except.ok ())).call
        = ApiCall.update ("p1")
            { defaultValues none with type := (initialFormState none).itemType }
      ∧ Effect.toastSuccess ("Item updated successfully")
          ∈ (handleSave (some ("p1")) (defaultValues none) (initialFormState none)
              (defaultValues none) true (Except.ok ())).effects)
    ∧ ((handleSave none (defaultValues none) (initialFormState none)
        (defaultValues none) true (Except.ok ())).call
        = ApiCall.create { defaultValues none with type := (initialFormState none).itemType }
      ∧ Effect.toastSuccess ("Item created successfully")
          ∈ (handleSave none (defaultValues none) (initialFormState none)
              (defaultValues none) true (Except.ok ())).effects) :=
  c1_create_or_update_by_id ("p1") (defaultValues none) (initialFormState none)
    (defaultValues none) true (by decide)

/-- C6: a submission whose `name` fails the required-field validation is
blocked: the outcome is an inline field error on `name` and no call to
`createProduct` or `updateProduct` is made. -/
theorem c6_empty_name_blocks_submit (pid : Option String)
    (dv : ProductFormValues) (st : FormState) (v : ProductFormValues)
    (rd : Bool) (r : Except JsError Unit) (h : v.name = "") :
    formHandleSubmit pid dv st v rd r = SubmitOutcome.blocked [("name", "Required")]
    ∧ outcomeCall (formHandleSubmit pid dv st v rd r) = none := by
  constructor <;> simp [formHandleSubmit, validateProduct, outcomeCall, h]

/-- C6 witness: the blocked outcome at the concrete empty-name form values
of a freshly mounted create form. -/
theorem c6_empty_name_blocks_submit_witness :
    formHandleSubmit none (defaultValues none) (initialFormState none)
        (defaultValues none) true (Except.ok ())
      = SubmitOutcome.blocked [("name", "Required")]
    ∧ outcomeCall (formHandleSubmit none (defaultValues none) (initialFormState none)
        (defaultValues none) true (Except.ok ())) = none :=
  c6_empty_name_blocks_submit none (defaultValues none) (initialFormState none)
    (defaultValues none) true (Except.ok ()) (by decide)

/-- C9 counterexample: the defaults are built with JS `||` fallbacks, so a
supplied record whose `low_stock_threshold` is the falsy number `0` does not
populate the field with the record's value: the form starts at the default
`5` instead, refuting the claim that each field takes the record's value. -/
theorem c9_counterexample :
    zeroThresholdRecord.low_stock_threshold = some 0
    ∧ (defaultValues (some zeroThresholdRecord)).low_stock_threshold = 5
    ∧ (defaultValues (some zeroThresholdRecord)).name = "Widget" := by
  exact ⟨rfl, rfl, rfl⟩

/-- C9 (amended): the initial form state is populated from the supplied
record for every field whose record value is truthy (a non-empty string or a
non-zero number); a field whose record value is absent or falsy falls back
to its documented default, and with no record supplied every field takes the
documented defaults (unit `pcs`, low stock threshold `5`, tax types
`exclusive`, type `product`, zeros and empty strings elsewhere). -/
theorem c9_defaults_from_record_or_documented (s : String) (n : Int)
    (hs : s ≠ "") (hn : n ≠ 0) :
    defaultValues (some (mkInitial s n))
      = { name := s, description := s, sku := s, hsn_code := s, price := n
        , cost_price := n, stock_quantity := n, gst_rate := n, unit := s
        , low_stock_threshold := n, type := s, image_url := s, barcode := s
        , category := s, tax_type := s, purchase_tax_type := s, discount := n
        , discount_type := s, wholesale_price := some n
        , opening_stock_date := some s }
    ∧ defaultValues none
      = { name := "", description := "", sku := "", hsn_code := "", price := 0
        , cost_price := 0, stock_quantity := 0, gst_rate := 0, unit := "pcs"
        , low_stock_threshold := 5, type := "product", image_url := ""
        , barcode := "", category := "", tax_type := "exclusive"
        , purchase_tax_type := "exclusive", discount := 0
        , discount_type := "percentage", wholesale_price := none
        , opening_stock_date := none }
    ∧ defaultValues (some (mkInitial ("") 0)) = defaultValues none := by
  refine ⟨?_, by decide, by decide⟩
  simp [defaultValues, mkInitial, jsOrStr, jsOrInt, jsOrUndef, jsDateOpt, hs, hn]

/-- C9 witness: the amended statement at a concrete truthy record. -/
theorem c9_defaults_from_record_or_documented_witness :
    defaultValues (some (mkInitial ("x") 1))
      = { name := "x", description := "x", sku := "x", hsn_code := "x", price := 1
        , cost_price := 1, stock_quantity := 1, gst_rate := 1, unit := "x"
        , low_stock_threshold := 1, type := "x", image_url := "x", barcode := "x"
        , category := "x", tax_type := "x", purchase_tax_type := "x", discount := 1
        , discount_type := "x", wholesale_price := some 1
        , opening_stock_date := some ("x") }
    ∧ defaultValues none
      = { name := "", description := "", sku := "", hsn_code := "", price := 0
        , cost_price := 0, stock_quantity := 0, gst_rate := 0, unit := "pcs"
        , low_stock_threshold := 5, type := "product", image_url := ""
        , barcode := "", category := "", tax_type := "exclusive"
        , purchase_tax_type := "exclusive", discount := 0
        , discount_type := "percentage", wholesale_price := none
        , opening_stock_date := none }
    ∧ defaultValues (some (mkInitial ("") 0)) = defaultValues none :=
  c9_defaults_from_record_or_documented ("x") 1 (by decide) (by decide)

/-- In every reachable submission state there is at most one in-flight save,
and the loading flag is set exactly while one is in flight. -/
theorem submit_invariant (s : SubmitState) (h : ReachableSubmit s) :
    s.inFlight ≤ 1 ∧ (s.loading = true ↔ s.inFlight = 1) := by
  induction h with
  | init => exact ⟨by decide, by simp⟩
  | step s s2 e hs hstep ih =>
      obtain ⟨h1, h2⟩ := ih
      cases e with
      | start =>
          cases hls : s.loading with
          | true =>
              simp [submitStep, saveButtonDisabled, saveAndNewButtonDisabled, hls] at hstep
          | false =>
              have hne : s.inFlight ≠ 1 := fun hf => by
                have hl := h2.mpr hf
                rw [hls] at hl
                exact Bool.false_ne_true hl
              have hz : s.inFlight = 0 := by omega
              simp [submitStep, saveButtonDisabled, saveAndNewButtonDisabled, hls, hz] at hstep
              subst hstep
              exact ⟨by simp, by simp⟩
      | settle b =>
          by_cases hz : s.inFlight = 0
          · simp [submitStep, hz] at hstep
          · have h1e : s.inFlight = 1 := by omega
            simp [submitStep, hz, h1e] at hstep
            subst hstep
            exact ⟨by simp, by simp⟩

/-- C7: in every reachable state of a form instance at most one save is in
flight; while one is pending the loading flag is set and both the Save and
the Save and New buttons are disabled, so no second submission can start
before the first settles; and a settle event, whatever its success flag, as
well as every completed `handleSave` run, leaves the loading flag cleared. -/
theorem c7_single_inflight_guard (s : SubmitState) (h : ReachableSubmit s) :
    s.inFlight ≤ 1
    ∧ (s.inFlight = 1 →
        s.loading = true
        ∧ saveButtonDisabled s.loading = true
        ∧ saveAndNewButtonDisabled s.loading = true
        ∧ submitStep s SubmitEvent.start = none)
    ∧ (∀ b s2, submitStep s (SubmitEvent.settle b) = some s2 → s2.loading = false)
    ∧ (∀ pid dv st data rd r,
        (handleSave pid dv st data rd r).state.loading = false) := by
  obtain ⟨h1, h2⟩ := submit_invariant s h
  refine ⟨h1, ?_, ?_, ?_⟩
  · intro hif
    have hl := h2.mpr hif
    refine ⟨hl, ?_, ?_, ?_⟩
    · simp [saveButtonDisabled, hl]
    · simp [saveAndNewButtonDisabled, hl]
    · simp [submitStep, saveButtonDisabled, saveAndNewButtonDisabled, hl]
  · intro b s2 hstep
    by_cases hz : s.inFlight = 0
    · simp [submitStep, hz] at hstep
    · simp [submitStep, hz] at hstep
      subst hstep
      rfl
  · intro pid dv st data rd r
    cases r with
    | error e => rfl
    | ok u => cases rd <;> rfl

/-- C7 witness: the guarded state with one in-flight save, reached from
mount by one start event. -/
theorem c7_single_inflight_guard_witness :
    ({ loading := true, inFlight := 1 } : SubmitState).inFlight ≤ 1
    ∧ (({ loading := true, inFlight := 1 } : SubmitState).inFlight = 1 →
        ({ loading := true, inFlight := 1 } : SubmitState).loading = true
        ∧ saveButtonDisabled ({ loading := true, inFlight := 1 } : SubmitState).loading = true
        ∧ saveAndNewButtonDisabled ({ loading := true, inFlight := 1 } : SubmitState).loading = true
        ∧ submitStep { loading := true, inFlight := 1 } SubmitEvent.start = none)
    ∧ (∀ b s2, submitStep { loading := true, inFlight := 1 } (SubmitEvent.settle b) = some s2 →
        s2.loading = false)
    ∧ (∀ pid dv st data rd r,
        (handleSave pid dv st data rd r).state.loading = false) :=
  c7_single_inflight_guard { loading := true, inFlight := 1 }
    (ReachableSubmit.step { loading := false, inFlight := 0 }
      { loading := true, inFlight := 1 } SubmitEvent.start
      ReachableSubmit.init (by decide))
